import Mathlib

/-!
Shallow embedding of `pkg/platform/src/components/aws/cdn.ts`: the `Cdn`
component (domain normalization, hosted-zone resolution, certificate,
distribution, Route 53 records, redirects) and the `Resource` proxy.
Optional fields of the TypeScript interfaces become `Option` fields, and
JavaScript truthiness tests on them are modelled explicitly.
-/

/-- JavaScript truthiness of an optional string value: `undefined` and the
empty string are falsy, every other string is truthy. -/
def truthy : Option String → Bool
  | none => false
  | some s => !s.isEmpty

/-- Structured domain descriptor `CdnDomainArgs` from cdn.ts; a `none` field
models an absent key. -/
structure CdnDomainArgs where
  domainName : Option String := none
  redirects : Option (List String) := none
  aliases : Option (List String) := none
  hostedZone : Option String := none
  hostedZoneId : Option String := none
deriving Repr, DecidableEq

/-- The `domain` argument of `CdnArgs`: a bare string or a structured
descriptor. -/
inductive DomainInput
  | str (d : String)
  | obj (args : CdnDomainArgs)
deriving Repr, DecidableEq

/-- Normalized domain configuration: the value produced inside
`normalizeDomain` in cdn.ts (lines 126-138). -/
structure DomainConfig where
  domainName : String
  aliases : List String
  redirects : List String
  hostedZone : Option String := none
  hostedZoneId : Option String := none
deriving Repr, DecidableEq

/-- Body of the callback passed to `output(args.domain).apply` in
`normalizeDomain` (cdn.ts lines 126-138): a bare string maps to a config with
empty `aliases` and `redirects`; a structured descriptor is validated (falsy
`domainName` rejected; both zone fields truthy rejected) and then spread over
the defaults. -/
def normalizeDomainOne : DomainInput → Except String DomainConfig
  | .str d => .ok { domainName := d, aliases := [], redirects := [] }
  | .obj domain =>
    if truthy domain.domainName = false then
      .error "Missing \"domainName\" for domain."
    else if truthy domain.hostedZone && truthy domain.hostedZoneId then
      .error "Do not set both \"hostedZone\" and \"hostedZoneId\"."
    else
      .ok { domainName := domain.domainName.getD "",
            aliases := domain.aliases.getD [],
            redirects := domain.redirects.getD [],
            hostedZone := domain.hostedZone,
            hostedZoneId := domain.hostedZoneId }

/-- The whole of `normalizeDomain` (cdn.ts lines 123-139): when `args.domain`
is falsy (absent, or the empty string) the function returns `undefined`,
modelled as `Except.ok none`; a thrown validation error is `Except.error`. -/
def normalizeDomain : Option DomainInput → Except String (Option DomainConfig)
  | none => .ok none
  | some (.str d) =>
      if d.isEmpty then .ok none else (normalizeDomainOne (.str d)).map some
  | some (.obj a) => (normalizeDomainOne (.obj a)).map some

/-- How the zone id of a normalized domain is obtained: either the explicit
`hostedZoneId` passed through, or a `HostedZoneLookup` provider invocation on
the given zone name. -/
inductive ZoneResolution
  | explicitId (id : String)
  | zoneLookup (domain : String)
deriving Repr, DecidableEq

/-- The `lookupHostedZoneId` step (cdn.ts lines 141-155): nothing without a
domain; the explicit id when `domain.hostedZoneId` is truthy; otherwise a
lookup on `domain.hostedZone ?? domain.domainName`. -/
def lookupHostedZoneId (domain : Option DomainConfig) : Option ZoneResolution :=
  domain.map fun d =>
    if truthy d.hostedZoneId then .explicitId (d.hostedZoneId.getD "")
    else .zoneLookup (d.hostedZone.getD d.domainName)

/-- Resolved outputs of external collaborators: the `HostedZoneLookup`
provider's zone id per looked-up name, the certificate ARN, the
distribution's edge hostname and edge zone id, and `sanitizeToPascalCase`
from `../naming.js` (not part of this fragment, kept abstract). -/
structure Env where
  lookupZoneId : String → String
  certificateArn : String
  distributionDomainName : String
  distributionHostedZoneId : String
  sanitize : String → String

/-- The zone id value threaded into downstream resources once asynchronous
resolution completes. -/
def resolveZone (env : Env) : Option ZoneResolution → Option String
  | none => none
  | some (.explicitId id) => some id
  | some (.zoneLookup d) => some (env.lookupZoneId d)

/-- One entry of the `aliases` list of an `aws.route53.Record`. -/
structure AliasTarget where
  name : String
  zoneId : String
  evaluateTargetHealth : Bool
deriving Repr, DecidableEq

/-- The `viewerCertificate` field of the distribution args. -/
inductive ViewerCertificate
  | acm (certificateArn : String) (sslSupportMethod : String)
  | cloudfrontDefault
deriving Repr, DecidableEq

/-- The `defaultCacheBehavior` field of the distribution args. -/
structure DefaultCacheBehavior where
  allowedMethods : List String
  cachedMethods : List String
  targetOriginId : String
  viewerProtocolPolicy : String
deriving Repr, DecidableEq

/-- The distribution argument record built in `createDistribution`
(cdn.ts lines 176-204). -/
structure DistributionArgs where
  defaultCacheBehavior : DefaultCacheBehavior
  enabled : Bool
  origins : List String
  geoRestrictionType : String
  aliases : List String
  viewerCertificate : ViewerCertificate
deriving Repr, DecidableEq

/-- One resource registered by the component, with its logical name and the
arguments the component passes to it. -/
inductive Resource
  | hostedZoneLookup (name : String) (domain : String)
  | certificate (name : String) (domainName : String) (alternativeNames : List String)
      (zoneId : String) (region : String)
  | distribution (name : String) (args : DistributionArgs)
  | route53Record (name : String) (recordName : String) (zoneId : String)
      (recordType : String) (aliasTargets : List AliasTarget)
  | httpsRedirect (name : String) (zoneId : String) (sourceDomains : List String)
      (targetDomain : String)
deriving Repr, DecidableEq

def Resource.isLookup : Resource → Bool
  | .hostedZoneLookup _ _ => true
  | _ => false

def Resource.isCertificate : Resource → Bool
  | .certificate _ _ _ _ _ => true
  | _ => false

def Resource.isRoute53Record : Resource → Bool
  | .route53Record _ _ _ _ _ => true
  | _ => false

def Resource.isRedirect : Resource → Bool
  | .httpsRedirect _ _ _ _ => true
  | _ => false

/-- Caller-supplied component arguments. Modelled from the spec: the
`transform` combinator lives in `../component.js`, which is not among the
sources; per the spec it applies the caller-supplied function to the fully
built distribution argument set immediately before resource creation, so the
`transform.distribution` argument is modelled as that function. -/
structure CdnArgs where
  domain : Option DomainInput
  transformDistribution : DistributionArgs → DistributionArgs

/-- The `HostedZoneLookup` resource registered by `lookupHostedZoneId`
(cdn.ts lines 147-153), present exactly when no explicit id was given. -/
def zoneLookupResources (name : String) : Option ZoneResolution → List Resource
  | some (.zoneLookup d) => [.hostedZoneLookup (name ++ "HostedZoneLookup") d]
  | _ => []

/-- The `createSsl` step (cdn.ts lines 157-171): a `DnsValidatedCertificate`
in us-east-1 for the primary name with the aliases as alternative names,
skipped when domain or zone id is missing. -/
def createSsl (name : String) (domain : Option DomainConfig)
    (zoneId : Option String) : List Resource :=
  match domain, zoneId with
  | some d, some z =>
    [.certificate (name ++ "Ssl") d.domainName d.aliases z "us-east-1"]
  | _, _ => []

/-- The `createDistribution` step (cdn.ts lines 173-207): always one
distribution, with `aliases` set from the domain when present and the viewer
certificate referencing the ACM certificate when present, after applying the
caller transform. -/
def createDistribution (name : String) (tr : DistributionArgs → DistributionArgs)
    (domain : Option DomainConfig) (certificate : Option String) : Resource :=
  .distribution (name ++ "Distribution") (tr
    { defaultCacheBehavior :=
        { allowedMethods := [], cachedMethods := [], targetOriginId := "placeholder",
          viewerProtocolPolicy := "redirect-to-https" },
      enabled := true,
      origins := [],
      geoRestrictionType := "none",
      aliases :=
        match domain with
        | some d => d.domainName :: d.aliases
        | none => [],
      viewerCertificate :=
        match certificate with
        | some arn => .acm arn "sni-only"
        | none => .cloudfrontDefault })

/-- The `createRoute53Records` step (cdn.ts lines 209-237): for each name in
`domainName :: aliases`, one record per type in `A, AAAA`, aliasing the
distribution's edge hostname and edge zone id with target-health evaluation
enabled; skipped when domain or zone id is missing. -/
def createRoute53Records (env : Env) (name : String) (domain : Option DomainConfig)
    (zoneId : Option String) : List Resource :=
  match domain, zoneId with
  | some d, some z =>
    (d.domainName :: d.aliases).flatMap fun recordName =>
      ["A", "AAAA"].map fun t =>
        .route53Record (name ++ t ++ "Record" ++ env.sanitize recordName) recordName z t
          [{ name := env.distributionDomainName,
             zoneId := env.distributionHostedZoneId,
             evaluateTargetHealth := true }]
  | _, _ => []

/-- The `createRedirects` step (cdn.ts lines 239-257): one `HttpsRedirect`
from the redirect list to the primary name when the list is non-empty;
skipped when zone id or domain is missing. -/
def createRedirects (name : String) (domain : Option DomainConfig)
    (zoneId : Option String) : List Resource :=
  match domain, zoneId with
  | some d, some z =>
    if d.redirects.length = 0 then []
    else [.httpsRedirect (name ++ "Redirect") z d.redirects d.domainName]
  | _, _ => []

/-- The observable outcome of constructing a `Cdn` component: the resources
it registers and the `url` and `domainUrl` getters. -/
structure CdnState where
  resources : List Resource
  url : String
  domainUrl : Option String
deriving Repr, DecidableEq

/-- All resources registered by the constructor, in registration order, for
an already-normalized domain. -/
def buildResources (env : Env) (name : String) (args : CdnArgs)
    (domain : Option DomainConfig) : List Resource :=
  let zres := lookupHostedZoneId domain
  let zoneId := resolveZone env zres
  let certificate : Option String :=
    match domain, zoneId with
    | some _, some _ => some env.certificateArn
    | _, _ => none
  zoneLookupResources name zres
    ++ createSsl name domain zoneId
    ++ [createDistribution name args.transformDistribution domain certificate]
    ++ createRoute53Records env name domain zoneId
    ++ createRedirects name domain zoneId

/-- The `Cdn` constructor (cdn.ts lines 106-258) together with the `url` and
`domainUrl` getters: normalization errors abort construction before any
resource is created; otherwise the five steps run in order. -/
def construct (env : Env) (name : String) (args : CdnArgs) : Except String CdnState :=
  (normalizeDomain args.domain).map fun domain =>
    { resources := buildResources env name args domain,
      url := "https://" ++ env.distributionDomainName,
      domainUrl := domain.map fun d => "https://" ++ d.domainName }

/-- The `Resource` proxy `get` trap (cdn.ts lines 284-301), generic in the
type of runtime values: read `SST_RESOURCE_<prop>` from the environment first
(a truthiness test, so an unset or empty variable falls through) and parse
it; otherwise fall back to the global link table; otherwise throw. -/
def resourceGet {V : Type} (env : String → Option String) (links : String → Option V)
    (parse : String → V) (prop : String) : Except String V :=
  let envName := "SST_RESOURCE_" ++ prop
  if truthy (env envName) then .ok (parse ((env envName).getD ""))
  else
    match links prop with
    | some v => .ok v
    | none => .error ("\"" ++ prop ++ "\" is not linked")

/-- Re-injection of a normalized config as a structured descriptor, for the
idempotence property. -/
def DomainConfig.toArgs (c : DomainConfig) : CdnDomainArgs :=
  { domainName := some c.domainName,
    aliases := some c.aliases,
    redirects := some c.redirects,
    hostedZone := c.hostedZone,
    hostedZoneId := c.hostedZoneId }

/-! Helper lemmas: every element of each step's output has that step's
resource shape, so filtering the full plan by kind isolates one step. -/

theorem mem_zoneLookupResources {name : String} {zres : Option ZoneResolution}
    {r : Resource} (h : r ∈ zoneLookupResources name zres) :
    ∃ a b, r = .hostedZoneLookup a b := by
  match zres with
  | none => simp [zoneLookupResources] at h
  | some (.explicitId _) => simp [zoneLookupResources] at h
  | some (.zoneLookup d) =>
      simp [zoneLookupResources] at h
      exact ⟨_, _, h⟩

theorem mem_createSsl {name : String} {dOpt : Option DomainConfig}
    {zOpt : Option String} {r : Resource} (h : r ∈ createSsl name dOpt zOpt) :
    ∃ a b c z g, r = .certificate a b c z g := by
  match dOpt, zOpt with
  | none, none => simp [createSsl] at h
  | none, some _ => simp [createSsl] at h
  | some _, none => simp [createSsl] at h
  | some d, some z =>
      simp [createSsl] at h
      exact ⟨_, _, _, _, _, h⟩

theorem mem_createRoute53Records {env : Env} {name : String}
    {dOpt : Option DomainConfig} {zOpt : Option String} {r : Resource}
    (h : r ∈ createRoute53Records env name dOpt zOpt) :
    ∃ a b c t ats, r = .route53Record a b c t ats := by
  match dOpt, zOpt with
  | none, none => simp [createRoute53Records] at h
  | none, some _ => simp [createRoute53Records] at h
  | some _, none => simp [createRoute53Records] at h
  | some d, some z =>
      simp [createRoute53Records, List.mem_flatMap] at h
      rcases h with h | h | ⟨n, hn, h | h⟩ <;> exact ⟨_, _, _, _, _, h⟩

theorem mem_createRedirects {name : String} {dOpt : Option DomainConfig}
    {zOpt : Option String} {r : Resource} (h : r ∈ createRedirects name dOpt zOpt) :
    ∃ a z s t, r = .httpsRedirect a z s t := by
  match dOpt, zOpt with
  | none, none => simp [createRedirects] at h
  | none, some _ => simp [createRedirects] at h
  | some _, none => simp [createRedirects] at h
  | some d, some z =>
      by_cases hl : d.redirects.length = 0 <;> simp [createRedirects, hl] at h
      exact ⟨_, _, _, _, h⟩

theorem filter_isLookup_buildResources (env : Env) (name : String) (args : CdnArgs)
    (domain : Option DomainConfig) :
    (buildResources env name args domain).filter Resource.isLookup
      = zoneLookupResources name (lookupHostedZoneId domain) := by
  have h1 : (createSsl name domain
      (resolveZone env (lookupHostedZoneId domain))).filter Resource.isLookup = [] :=
    List.filter_eq_nil_iff.mpr fun r hr => by
      obtain ⟨_, _, _, _, _, rfl⟩ := mem_createSsl hr; simp [Resource.isLookup]
  have h2 : (createRoute53Records env name domain
      (resolveZone env (lookupHostedZoneId domain))).filter Resource.isLookup = [] :=
    List.filter_eq_nil_iff.mpr fun r hr => by
      obtain ⟨_, _, _, _, _, rfl⟩ := mem_createRoute53Records hr; simp [Resource.isLookup]
  have h3 : (createRedirects name domain
      (resolveZone env (lookupHostedZoneId domain))).filter Resource.isLookup = [] :=
    List.filter_eq_nil_iff.mpr fun r hr => by
      obtain ⟨_, _, _, _, rfl⟩ := mem_createRedirects hr; simp [Resource.isLookup]
  have h4 : (zoneLookupResources name (lookupHostedZoneId domain)).filter Resource.isLookup
      = zoneLookupResources name (lookupHostedZoneId domain) :=
    List.filter_eq_self.mpr fun r hr => by
      obtain ⟨_, _, rfl⟩ := mem_zoneLookupResources hr; simp [Resource.isLookup]
  simp [buildResources, List.filter_append, h1, h2, h3, h4,
    createDistribution, Resource.isLookup]

theorem filter_isCertificate_buildResources (env : Env) (name : String) (args : CdnArgs)
    (domain : Option DomainConfig) :
    (buildResources env name args domain).filter Resource.isCertificate
      = createSsl name domain (resolveZone env (lookupHostedZoneId domain)) := by
  have h1 : (zoneLookupResources name
      (lookupHostedZoneId domain)).filter Resource.isCertificate = [] :=
    List.filter_eq_nil_iff.mpr fun r hr => by
      obtain ⟨_, _, rfl⟩ := mem_zoneLookupResources hr; simp [Resource.isCertificate]
  have h2 : (createRoute53Records env name domain
      (resolveZone env (lookupHostedZoneId domain))).filter Resource.isCertificate = [] :=
    List.filter_eq_nil_iff.mpr fun r hr => by
      obtain ⟨_, _, _, _, _, rfl⟩ := mem_createRoute53Records hr; simp [Resource.isCertificate]
  have h3 : (createRedirects name domain
      (resolveZone env (lookupHostedZoneId domain))).filter Resource.isCertificate = [] :=
    List.filter_eq_nil_iff.mpr fun r hr => by
      obtain ⟨_, _, _, _, rfl⟩ := mem_createRedirects hr; simp [Resource.isCertificate]
  have h4 : (createSsl name domain
      (resolveZone env (lookupHostedZoneId domain))).filter Resource.isCertificate
      = createSsl name domain (resolveZone env (lookupHostedZoneId domain)) :=
    List.filter_eq_self.mpr fun r hr => by
      obtain ⟨_, _, _, _, _, rfl⟩ := mem_createSsl hr; simp [Resource.isCertificate]
  simp [buildResources, List.filter_append, h1, h2, h3, h4,
    createDistribution, Resource.isCertificate]

theorem filter_isRoute53Record_buildResources (env : Env) (name : String) (args : CdnArgs)
    (domain : Option DomainConfig) :
    (buildResources env name args domain).filter Resource.isRoute53Record
      = createRoute53Records env name domain (resolveZone env (lookupHostedZoneId domain)) := by
  have h1 : (zoneLookupResources name
      (lookupHostedZoneId domain)).filter Resource.isRoute53Record = [] :=
    List.filter_eq_nil_iff.mpr fun r hr => by
      obtain ⟨_, _, rfl⟩ := mem_zoneLookupResources hr; simp [Resource.isRoute53Record]
  have h2 : (createSsl name domain
      (resolveZone env (lookupHostedZoneId domain))).filter Resource.isRoute53Record = [] :=
    List.filter_eq_nil_iff.mpr fun r hr => by
      obtain ⟨_, _, _, _, _, rfl⟩ := mem_createSsl hr; simp [Resource.isRoute53Record]
  have h3 : (createRedirects name domain
      (resolveZone env (lookupHostedZoneId domain))).filter Resource.isRoute53Record = [] :=
    List.filter_eq_nil_iff.mpr fun r hr => by
      obtain ⟨_, _, _, _, rfl⟩ := mem_createRedirects hr; simp [Resource.isRoute53Record]
  have h4 : (createRoute53Records env name domain
      (resolveZone env (lookupHostedZoneId domain))).filter Resource.isRoute53Record
      = createRoute53Records env name domain (resolveZone env (lookupHostedZoneId domain)) :=
    List.filter_eq_self.mpr fun r hr => by
      obtain ⟨_, _, _, _, _, rfl⟩ := mem_createRoute53Records hr
      simp [Resource.isRoute53Record]
  simp [buildResources, List.filter_append, h1, h2, h3, h4,
    createDistribution, Resource.isRoute53Record]

theorem filter_isRedirect_buildResources (env : Env) (name : String) (args : CdnArgs)
    (domain : Option DomainConfig) :
    (buildResources env name args domain).filter Resource.isRedirect
      = createRedirects name domain (resolveZone env (lookupHostedZoneId domain)) := by
  have h1 : (zoneLookupResources name
      (lookupHostedZoneId domain)).filter Resource.isRedirect = [] :=
    List.filter_eq_nil_iff.mpr fun r hr => by
      obtain ⟨_, _, rfl⟩ := mem_zoneLookupResources hr; simp [Resource.isRedirect]
  have h2 : (createSsl name domain
      (resolveZone env (lookupHostedZoneId domain))).filter Resource.isRedirect = [] :=
    List.filter_eq_nil_iff.mpr fun r hr => by
      obtain ⟨_, _, _, _, _, rfl⟩ := mem_createSsl hr; simp [Resource.isRedirect]
  have h3 : (createRoute53Records env name domain
      (resolveZone env (lookupHostedZoneId domain))).filter Resource.isRedirect = [] :=
    List.filter_eq_nil_iff.mpr fun r hr => by
      obtain ⟨_, _, _, _, _, rfl⟩ := mem_createRoute53Records hr; simp [Resource.isRedirect]
  have h4 : (createRedirects name domain
      (resolveZone env (lookupHostedZoneId domain))).filter Resource.isRedirect
      = createRedirects name domain (resolveZone env (lookupHostedZoneId domain)) :=
    List.filter_eq_self.mpr fun r hr => by
      obtain ⟨_, _, _, _, rfl⟩ := mem_createRedirects hr; simp [Resource.isRedirect]
  simp [buildResources, List.filter_append, h1, h2, h3, h4,
    createDistribution, Resource.isRedirect]

theorem truthy_some_of_ne {s : String} (h : s ≠ "") : truthy (some s) = true := by
  simp [truthy, Bool.not_eq_true', ← Bool.not_eq_true]
  exact fun hc => h ((String.isEmpty_iff s).mp hc)

theorem truthy_none : truthy none = false := rfl

theorem ne_empty_of_truthy {o : Option String} (h : truthy o = true) :
    ∃ s, o = some s ∧ s ≠ "" := by
  match o with
  | none => simp [truthy] at h
  | some s =>
      refine ⟨s, rfl, fun hc => ?_⟩
      rw [hc] at h
      simp [truthy, String.isEmpty] at h

theorem length_flatMap_pair {α β : Type} (l : List α) (f g : α → β) :
    (l.flatMap fun a => [f a, g a]).length = 2 * l.length := by
  induction l with
  | nil => simp
  | cons x xs ih =>
      simp only [List.flatMap_cons, List.length_append, List.length_cons, ih,
        List.length_nil]
      ring

/-- A concrete environment used to instantiate the theorems on sample
inputs. -/
def sampleEnv : Env :=
  { lookupZoneId := fun _ => "Z0LOOKUP",
    certificateArn := "arn:aws:acm:us-east-1:111:certificate/abc",
    distributionDomainName := "d111abc.cloudfront.net",
    distributionHostedZoneId := "Z2FDTNDATAQYW2",
    sanitize := fun s => s }

/-- C1: a structured domain descriptor with both `hostedZone` and
`hostedZoneId` set (to non-empty strings, the truthy values the code tests
for) makes construction fail with a descriptive error, before any resource
is created: `construct` returns `Except.error` and no resource list. -/
theorem c1_both_zone_fields_fail (env : Env) (name : String)
    (tr : DistributionArgs → DistributionArgs) (a : CdnDomainArgs) (hz hzid : String)
    (h1 : a.hostedZone = some hz) (h2 : hz ≠ "")
    (h3 : a.hostedZoneId = some hzid) (h4 : hzid ≠ "") :
    ∃ msg, construct env name ⟨some (.obj a), tr⟩ = .error msg ∧ msg ≠ "" := by
  by_cases hd : truthy a.domainName = true
  · refine ⟨"Do not set both \"hostedZone\" and \"hostedZoneId\".", ?_, by decide⟩
    simp [construct, normalizeDomain, normalizeDomainOne, Except.map, hd, h1, h3,
      truthy_some_of_ne h2, truthy_some_of_ne h4]
  · refine ⟨"Missing \"domainName\" for domain.", ?_, by decide⟩
    simp only [Bool.not_eq_true] at hd
    simp [construct, normalizeDomain, normalizeDomainOne, Except.map, hd]

theorem c1_both_zone_fields_fail_witness :
    ∃ msg, construct sampleEnv "Web"
        ⟨some (.obj { domainName := some "domain.com",
                      hostedZone := some "domain.com",
                      hostedZoneId := some "Z2FDTNDATAQYW2" }), id⟩
      = .error msg ∧ msg ≠ "" :=
  c1_both_zone_fields_fail sampleEnv "Web" id
    { domainName := some "domain.com", hostedZone := some "domain.com",
      hostedZoneId := some "Z2FDTNDATAQYW2" }
    "domain.com" "Z2FDTNDATAQYW2" rfl (by decide) rfl (by decide)

/-- C2: a structured domain descriptor whose `domainName` field is missing
makes construction fail with the descriptive error from cdn.ts line 132,
before any resource is created. -/
theorem c2_missing_domain_name_fails (env : Env) (name : String)
    (tr : DistributionArgs → DistributionArgs) (a : CdnDomainArgs)
    (h : a.domainName = none) :
    construct env name ⟨some (.obj a), tr⟩
      = .error "Missing \"domainName\" for domain." := by
  simp [construct, normalizeDomain, normalizeDomainOne, Except.map, h, truthy]

theorem c2_missing_domain_name_fails_witness :
    construct sampleEnv "Web" ⟨some (.obj { hostedZone := some "domain.com" }), id⟩
      = .error "Missing \"domainName\" for domain." :=
  c2_missing_domain_name_fails sampleEnv "Web" id
    { hostedZone := some "domain.com" } rfl

/-- C4: when the `domain` argument is absent, no certificate, no DNS record,
no redirect and no zone lookup is created, `domainUrl` is `none`, and `url`
is the distribution's default HTTPS endpoint. -/
theorem c4_no_domain (env : Env) (name : String)
    (tr : DistributionArgs → DistributionArgs) :
    ∃ st, construct env name ⟨none, tr⟩ = .ok st ∧
      st.resources.filter Resource.isCertificate = [] ∧
      st.resources.filter Resource.isRoute53Record = [] ∧
      st.resources.filter Resource.isRedirect = [] ∧
      st.resources.filter Resource.isLookup = [] ∧
      st.domainUrl = none ∧
      st.url = "https://" ++ env.distributionDomainName := by
  refine ⟨_, rfl, ?_, ?_, ?_, ?_, rfl, rfl⟩ <;>
    simp [construct, normalizeDomain, filter_isCertificate_buildResources,
      filter_isRoute53Record_buildResources, filter_isRedirect_buildResources,
      filter_isLookup_buildResources, lookupHostedZoneId, resolveZone,
      createSsl, createRoute53Records, createRedirects, zoneLookupResources]

/-- C6: a bare string domain input normalizes to exactly
`domainName = d`, `aliases = []`, `redirects = []` (and no zone fields);
through the outer falsy guard this is also what the whole normalizer
returns for any non-empty string. -/
theorem c6_string_normalization (d : String) :
    normalizeDomainOne (.str d)
      = .ok { domainName := d, aliases := [], redirects := [] } ∧
    (d ≠ "" → normalizeDomain (some (.str d))
      = .ok (some { domainName := d, aliases := [], redirects := [] })) := by
  refine ⟨rfl, fun h => ?_⟩
  have : d.isEmpty = false := by
    rw [← Bool.not_eq_true]
    exact fun hc => h ((String.isEmpty_iff d).mp hc)
  simp [normalizeDomain, normalizeDomainOne, Except.map, this]

theorem c6_string_normalization_witness :
    normalizeDomainOne (.str "domain.com")
      = .ok { domainName := "domain.com", aliases := [], redirects := [] } ∧
    normalizeDomain (some (.str "domain.com"))
      = .ok (some { domainName := "domain.com", aliases := [], redirects := [] }) :=
  ⟨(c6_string_normalization "domain.com").1,
   (c6_string_normalization "domain.com").2 (by decide)⟩

theorem construct_eq_ok_of_norm {env : Env} {name : String} {args : CdnArgs}
    {dOpt : Option DomainConfig} (hnorm : normalizeDomain args.domain = .ok dOpt) :
    construct env name args = .ok
      { resources := buildResources env name args dOpt,
        url := "https://" ++ env.distributionDomainName,
        domainUrl := dOpt.map fun d => "https://" ++ d.domainName } := by
  simp [construct, hnorm, Except.map]

/-- C3: for a configured domain with `N` aliases and an available zone id,
the plan contains exactly the `2 * (N + 1)` Route 53 records: for each name
in `domainName :: aliases`, one record of type A and one of type AAAA, each
an alias record pointing at the distribution's edge hostname and edge zone
id with `evaluateTargetHealth := true`. -/
theorem c3_route53_records (env : Env) (name : String) (args : CdnArgs)
    (d : DomainConfig) (z : String)
    (hnorm : normalizeDomain args.domain = .ok (some d))
    (hz : resolveZone env (lookupHostedZoneId (some d)) = some z) :
    ∃ st, construct env name args = .ok st ∧
      st.resources.filter Resource.isRoute53Record
        = ((d.domainName :: d.aliases).flatMap fun n =>
            [ Resource.route53Record (name ++ "A" ++ "Record" ++ env.sanitize n) n z "A"
                [{ name := env.distributionDomainName,
                   zoneId := env.distributionHostedZoneId,
                   evaluateTargetHealth := true }],
              Resource.route53Record (name ++ "AAAA" ++ "Record" ++ env.sanitize n) n z "AAAA"
                [{ name := env.distributionDomainName,
                   zoneId := env.distributionHostedZoneId,
                   evaluateTargetHealth := true }] ]) ∧
      (st.resources.filter Resource.isRoute53Record).length
        = 2 * (d.aliases.length + 1) := by
  refine ⟨_, construct_eq_ok_of_norm hnorm, ?_, ?_⟩
  · simp [filter_isRoute53Record_buildResources, hz, createRoute53Records]
  · rw [filter_isRoute53Record_buildResources, hz]
    have hlen := length_flatMap_pair (d.domainName :: d.aliases)
      (fun n => Resource.route53Record (name ++ "A" ++ "Record" ++ env.sanitize n) n z "A"
        [{ name := env.distributionDomainName, zoneId := env.distributionHostedZoneId,
           evaluateTargetHealth := true }])
      (fun n => Resource.route53Record (name ++ "AAAA" ++ "Record" ++ env.sanitize n) n z "AAAA"
        [{ name := env.distributionDomainName, zoneId := env.distributionHostedZoneId,
           evaluateTargetHealth := true }])
    simpa [createRoute53Records] using hlen

theorem c3_route53_records_witness :
    ∃ st, construct sampleEnv "Web"
        ⟨some (.obj { domainName := some "domain.com",
                      aliases := some ["app2.domain.com"],
                      hostedZoneId := some "Z0EXPLICIT" }), id⟩ = .ok st ∧
      st.resources.filter Resource.isRoute53Record
        = ((("domain.com" : String) :: ["app2.domain.com"]).flatMap fun n =>
            [ Resource.route53Record ("Web" ++ "A" ++ "Record" ++ sampleEnv.sanitize n) n
                "Z0EXPLICIT" "A"
                [{ name := sampleEnv.distributionDomainName,
                   zoneId := sampleEnv.distributionHostedZoneId,
                   evaluateTargetHealth := true }],
              Resource.route53Record ("Web" ++ "AAAA" ++ "Record" ++ sampleEnv.sanitize n) n
                "Z0EXPLICIT" "AAAA"
                [{ name := sampleEnv.distributionDomainName,
                   zoneId := sampleEnv.distributionHostedZoneId,
                   evaluateTargetHealth := true }] ]) ∧
      (st.resources.filter Resource.isRoute53Record).length
        = 2 * ((["app2.domain.com"] : List String).length + 1) :=
  c3_route53_records sampleEnv "Web"
    ⟨some (.obj { domainName := some "domain.com",
                  aliases := some ["app2.domain.com"],
                  hostedZoneId := some "Z0EXPLICIT" }), id⟩
    { domainName := "domain.com", aliases := ["app2.domain.com"], redirects := [],
      hostedZoneId := some "Z0EXPLICIT" }
    "Z0EXPLICIT" rfl rfl

/-- C5: when `hostedZoneId` is set (to a truthy value), the zone resolution
is the explicit id passed through unchanged and no `HostedZoneLookup`
resource appears in the plan; otherwise the resolution is a lookup by name,
on `hostedZone` when present and on `domainName` otherwise. -/
theorem c5_zone_resolution (env : Env) (name : String) (args : CdnArgs)
    (d : DomainConfig) (hnorm : normalizeDomain args.domain = .ok (some d)) :
    (∀ id, d.hostedZoneId = some id → id ≠ "" →
      lookupHostedZoneId (some d) = some (.explicitId id) ∧
      resolveZone env (lookupHostedZoneId (some d)) = some id ∧
      ∃ st, construct env name args = .ok st ∧
        st.resources.filter Resource.isLookup = []) ∧
    (truthy d.hostedZoneId = false →
      lookupHostedZoneId (some d) = some (.zoneLookup (d.hostedZone.getD d.domainName)) ∧
      ∀ hz, d.hostedZone = some hz →
        lookupHostedZoneId (some d) = some (.zoneLookup hz)) := by
  constructor
  · intro id hid hne
    have ht : truthy d.hostedZoneId = true := by rw [hid]; exact truthy_some_of_ne hne
    have hl : lookupHostedZoneId (some d) = some (.explicitId id) := by
      simp [lookupHostedZoneId, ht, hid, truthy_some_of_ne hne]
    refine ⟨hl, ?_, ?_⟩
    · rw [hl]; rfl
    · exact ⟨_, construct_eq_ok_of_norm hnorm,
        by rw [filter_isLookup_buildResources, hl]; rfl⟩
  · intro hf
    have hl : lookupHostedZoneId (some d)
        = some (.zoneLookup (d.hostedZone.getD d.domainName)) := by
      simp [lookupHostedZoneId, hf]
    exact ⟨hl, fun hz hhz => by rw [hl, hhz]; simp⟩

theorem c5_zone_resolution_witness :
    lookupHostedZoneId
        (some { domainName := "domain.com", aliases := [],
                redirects := [], hostedZoneId := some "Z0EXPLICIT" })
      = some (.explicitId "Z0EXPLICIT") ∧
    resolveZone sampleEnv
        (lookupHostedZoneId
          (some { domainName := "domain.com", aliases := [],
                  redirects := [], hostedZoneId := some "Z0EXPLICIT" }))
      = some "Z0EXPLICIT" ∧
    ∃ st, construct sampleEnv "Web"
        ⟨some (.obj { domainName := some "domain.com",
                      hostedZoneId := some "Z0EXPLICIT" }), fun a => a⟩ = .ok st ∧
      st.resources.filter Resource.isLookup = [] :=
  (c5_zone_resolution sampleEnv "Web"
      ⟨some (.obj { domainName := some "domain.com",
                    hostedZoneId := some "Z0EXPLICIT" }), fun a => a⟩
      { domainName := "domain.com", aliases := [], redirects := [],
        hostedZoneId := some "Z0EXPLICIT" } rfl).1
    "Z0EXPLICIT" rfl (by decide)

/-- C7: for a configured domain with a resolvable zone id, exactly one
redirect resource is created when the redirect list is non-empty, with the
full redirect list as source domains and the primary name as target; none is
created when the redirect list is empty. -/
theorem c7_redirects (env : Env) (name : String) (args : CdnArgs)
    (d : DomainConfig) (z : String)
    (hnorm : normalizeDomain args.domain = .ok (some d))
    (hz : resolveZone env (lookupHostedZoneId (some d)) = some z) :
    ∃ st, construct env name args = .ok st ∧
      (d.redirects ≠ [] →
        st.resources.filter Resource.isRedirect
          = [.httpsRedirect (name ++ "Redirect") z d.redirects d.domainName]) ∧
      (d.redirects = [] → st.resources.filter Resource.isRedirect = []) := by
  refine ⟨_, construct_eq_ok_of_norm hnorm, ?_, ?_⟩
  · intro hne
    rw [filter_isRedirect_buildResources, hz]
    simp [createRedirects, List.length_eq_zero, hne]
  · intro he
    rw [filter_isRedirect_buildResources, hz]
    simp [createRedirects, he]

theorem c7_redirects_witness :
    ∃ st, construct sampleEnv "Web"
        ⟨some (.obj { domainName := some "domain.com",
                      redirects := some ["www.domain.com"],
                      hostedZoneId := some "Z0EXPLICIT" }), fun a => a⟩ = .ok st ∧
      st.resources.filter Resource.isRedirect
        = [.httpsRedirect ("Web" ++ "Redirect") "Z0EXPLICIT"
            ["www.domain.com"] "domain.com"] := by
  obtain ⟨st, hok, h1, _⟩ :=
    c7_redirects sampleEnv "Web"
      ⟨some (.obj { domainName := some "domain.com",
                    redirects := some ["www.domain.com"],
                    hostedZoneId := some "Z0EXPLICIT" }), fun a => a⟩
      { domainName := "domain.com", aliases := [], redirects := ["www.domain.com"],
        hostedZoneId := some "Z0EXPLICIT" }
      "Z0EXPLICIT" rfl rfl
  exact ⟨st, hok, h1 (by decide)⟩

/-- C8: the domain normalizer is idempotent: feeding any successfully
normalized configuration back in as a structured descriptor yields exactly
the same configuration again, with no field lost and no duplication of the
defaulted `aliases` and `redirects` arrays. -/
theorem c8_normalize_idempotent (i : Option DomainInput) (c : DomainConfig)
    (h : normalizeDomain i = .ok (some c)) :
    normalizeDomain (some (.obj c.toArgs)) = .ok (some c) := by
  match i with
  | none => simp [normalizeDomain] at h
  | some (.str d) =>
      by_cases hd : d.isEmpty = true
      · simp [normalizeDomain, hd] at h
      · simp only [Bool.not_eq_true] at hd
        have hev : normalizeDomain (some (.str d))
            = .ok (some { domainName := d, aliases := [], redirects := [] }) := by
          simp [normalizeDomain, normalizeDomainOne, hd, Except.map]
        have heq := hev.symm.trans h
        injection heq with heq
        injection heq with heq
        subst heq
        simp [normalizeDomain, normalizeDomainOne, DomainConfig.toArgs, truthy,
          Except.map, hd]
  | some (.obj a) =>
      by_cases h1 : truthy a.domainName = false
      · simp [normalizeDomain, normalizeDomainOne, h1, Except.map] at h
      · by_cases h2 : (truthy a.hostedZone && truthy a.hostedZoneId) = true
        · simp only [Bool.not_eq_false] at h1
          simp [normalizeDomain, normalizeDomainOne, h1, h2, Except.map] at h
        · simp only [Bool.not_eq_false] at h1
          simp only [Bool.not_eq_true] at h2
          obtain ⟨s, hs, hsne⟩ := ne_empty_of_truthy h1
          have hev : normalizeDomain (some (.obj a))
              = .ok (some { domainName := a.domainName.getD "",
                            aliases := a.aliases.getD [],
                            redirects := a.redirects.getD [],
                            hostedZone := a.hostedZone,
                            hostedZoneId := a.hostedZoneId }) := by
            simp [normalizeDomain, normalizeDomainOne, h1, h2, Except.map]
          have heq := hev.symm.trans h
          injection heq with heq
          injection heq with heq
          subst heq
          simp [normalizeDomain, normalizeDomainOne, DomainConfig.toArgs, Except.map,
            hs, truthy_some_of_ne hsne, h2]

theorem c8_normalize_idempotent_witness :
    normalizeDomain (some (.obj (DomainConfig.toArgs
        { domainName := "domain.com", aliases := [], redirects := [] })))
      = .ok (some { domainName := "domain.com", aliases := [], redirects := [] }) :=
  c8_normalize_idempotent (some (.str "domain.com"))
    { domainName := "domain.com", aliases := [], redirects := [] } rfl

/-- C9: the runtime resource lookup returns the parsed value of the
`SST_RESOURCE_` environment variable when it is set to a truthy (non-empty)
string; otherwise the link-table entry when the name is present there;
otherwise it throws a "not linked" error naming the requested resource. -/
theorem c9_resource_lookup {V : Type} (env : String → Option String)
    (links : String → Option V) (parse : String → V) (prop : String) :
    (∀ s, env ("SST_RESOURCE_" ++ prop) = some s → s ≠ "" →
      resourceGet env links parse prop = .ok (parse s)) ∧
    (truthy (env ("SST_RESOURCE_" ++ prop)) = false →
      (∀ v, links prop = some v → resourceGet env links parse prop = .ok v) ∧
      (links prop = none →
        resourceGet env links parse prop
          = .error ("\"" ++ prop ++ "\" is not linked"))) := by
  refine ⟨fun s hs hne => ?_, fun hf => ⟨fun v hv => ?_, fun hn => ?_⟩⟩
  · simp [resourceGet, hs, truthy_some_of_ne hne]
  · simp [resourceGet, hf, hv]
  · simp [resourceGet, hf, hn]

/-- Sample process environment and link table for the lookup witness. -/
def sampleProcEnv : String → Option String :=
  fun n => if n = "SST_RESOURCE_Db" then some "value1" else none

def sampleLinks : String → Option String :=
  fun n => if n = "Queue" then some "linkval" else none

theorem c9_resource_lookup_witness :
    resourceGet sampleProcEnv sampleLinks (fun s => s ++ "!") "Db"
      = .ok ("value1" ++ "!") ∧
    resourceGet sampleProcEnv sampleLinks (fun s => s ++ "!") "Queue"
      = .ok "linkval" ∧
    resourceGet sampleProcEnv sampleLinks (fun s => s ++ "!") "Missing"
      = .error ("\"" ++ "Missing" ++ "\" is not linked") :=
  ⟨(c9_resource_lookup sampleProcEnv sampleLinks (fun s => s ++ "!") "Db").1
      "value1" (by decide) (by decide),
   ((c9_resource_lookup sampleProcEnv sampleLinks (fun s => s ++ "!") "Queue").2
      (by decide)).1 "linkval" (by decide),
   ((c9_resource_lookup sampleProcEnv sampleLinks (fun s => s ++ "!") "Missing").2
      (by decide)).2 (by decide)⟩

/-- C10: the resolved zone id is defined exactly when a domain is
configured; with no domain neither certificate nor record nor redirect nor
zone lookup resource appears in the plan; with a domain exactly one
certificate is created; and a zone lookup resource implies a configured
domain. -/
theorem c10_zone_iff_domain (env : Env) (name : String) (args : CdnArgs)
    (dOpt : Option DomainConfig) (h : normalizeDomain args.domain = .ok dOpt) :
    ((resolveZone env (lookupHostedZoneId dOpt)).isSome ↔ dOpt.isSome) ∧
    ∃ st, construct env name args = .ok st ∧
      (dOpt = none → st.resources.filter
          (fun r => r.isCertificate || r.isRoute53Record || r.isRedirect || r.isLookup)
        = []) ∧
      (∀ d, dOpt = some d → (st.resources.filter Resource.isCertificate).length = 1) ∧
      (st.resources.filter Resource.isLookup ≠ [] → dOpt.isSome) := by
  have hzone : ∀ d : DomainConfig,
      ∃ z, resolveZone env (lookupHostedZoneId (some d)) = some z := by
    intro d
    by_cases htr : truthy d.hostedZoneId = true <;>
      simp [lookupHostedZoneId, resolveZone, htr]
  refine ⟨?_, _, construct_eq_ok_of_norm h, ?_, ?_, ?_⟩
  · cases dOpt with
    | none => simp [lookupHostedZoneId, resolveZone]
    | some d =>
        obtain ⟨z, hz⟩ := hzone d
        simp [hz]
  · rintro rfl
    simp [buildResources, zoneLookupResources, lookupHostedZoneId, resolveZone,
      createSsl, createRoute53Records, createRedirects, createDistribution,
      Resource.isCertificate, Resource.isRoute53Record, Resource.isRedirect,
      Resource.isLookup]
  · rintro d rfl
    obtain ⟨z, hz⟩ := hzone d
    rw [filter_isCertificate_buildResources, hz]
    simp [createSsl]
  · intro hne
    cases dOpt with
    | none =>
        exfalso
        apply hne
        rw [filter_isLookup_buildResources]
        simp [lookupHostedZoneId, zoneLookupResources]
    | some d => simp

theorem c10_zone_iff_domain_witness :
    ((resolveZone sampleEnv (lookupHostedZoneId
        (some { domainName := "domain.com", aliases := [], redirects := [] }))).isSome
      ↔ (some { domainName := "domain.com", aliases := [], redirects := []
          : DomainConfig }).isSome) ∧
    ∃ st, construct sampleEnv "Web" ⟨some (.str "domain.com"), fun a => a⟩ = .ok st ∧
      (st.resources.filter Resource.isCertificate).length = 1 := by
  obtain ⟨hiff, st, hok, _, hcert, _⟩ :=
    c10_zone_iff_domain sampleEnv "Web" ⟨some (.str "domain.com"), fun a => a⟩
      (some { domainName := "domain.com", aliases := [], redirects := [] }) rfl
  exact ⟨hiff, st, hok, hcert _ rfl⟩
